import Mathlib

/-!
Verification development for the GCP Workload Identity Federation flows app
(`main.ts`). The app's helper functions and lifecycle handlers are embedded
shallowly: the key-value store becomes an explicit `Store` record threaded
through each operation, remote HTTP responses become an explicit `RemoteEnv`
record supplied to the operation, ambient crypto randomness (key generation,
`randomUUID`) becomes explicit inputs, and thrown errors become `Except`.
`generateChecksum` is embedded with a full executable SHA-256 over `Nat`
words reduced mod 2^32, validated below against the FIPS 180 test vectors,
and a `JSON.stringify` model for the flat (string / string-array / number
valued) objects the app hashes.
-/

set_option maxRecDepth 8000

namespace GcpWif

/-! ## SHA-256 (the `crypto.subtle.digest("SHA-256", ...)` call) -/

/-- Truncate a natural number to a 32-bit word. -/
def w32 (n : Nat) : Nat := n % 4294967296

/-- Right rotation of a 32-bit word. -/
def rotr (n x : Nat) : Nat := w32 ((x >>> n) ||| (x <<< (32 - n)))

def bigSigma0 (x : Nat) : Nat := (rotr 2 x) ^^^ (rotr 13 x) ^^^ (rotr 22 x)

def bigSigma1 (x : Nat) : Nat := (rotr 6 x) ^^^ (rotr 11 x) ^^^ (rotr 25 x)

def smallSigma0 (x : Nat) : Nat := (rotr 7 x) ^^^ (rotr 18 x) ^^^ (x >>> 3)

def smallSigma1 (x : Nat) : Nat := (rotr 17 x) ^^^ (rotr 19 x) ^^^ (x >>> 10)

def chFn (x y z : Nat) : Nat := (x &&& y) ^^^ ((x ^^^ 4294967295) &&& z)

def majFn (x y z : Nat) : Nat := (x &&& y) ^^^ (x &&& z) ^^^ (y &&& z)

/-- Trial-division primality for the small prime arguments below. -/
def isPrimeSimple (p : Nat) : Bool :=
  decide (2 ≤ p) && (List.range p).all fun d => decide (d < 2) || p % d != 0

/-- The first `count` primes starting from `cand`; `fuel` bounds the scan. -/
def primesFrom : Nat → Nat → Nat → List Nat
  | 0, _, _ => []
  | _, _, 0 => []
  | fuel + 1, cand, count + 1 =>
    if isPrimeSimple cand then cand :: primesFrom fuel (cand + 1) count
    else primesFrom fuel (cand + 1) (count + 1)

def firstPrimes (count : Nat) : List Nat := primesFrom 400 2 count

/-- Binary search for the integer cube root of `n` on `[lo, hi)`,
maintaining `lo ^ 3 ≤ n < hi ^ 3`; `fuel` bounds the iteration. -/
def icbrtAux (n : Nat) : Nat → Nat → Nat → Nat
  | 0, lo, _ => lo
  | fuel + 1, lo, hi =>
    if hi ≤ lo + 1 then lo
    else
      let mid := (lo + hi) / 2
      if mid * mid * mid ≤ n then icbrtAux n fuel mid hi
      else icbrtAux n fuel lo mid

/-- Integer cube root, sized for the `prime <<< 96` arguments below. -/
def icbrt (n : Nat) : Nat := icbrtAux n 64 0 (1 <<< 36)

/-- Binary search for the integer square root of `n` on `[lo, hi)`,
maintaining `lo ^ 2 ≤ n < hi ^ 2`; `fuel` bounds the iteration. -/
def isqrtAux (n : Nat) : Nat → Nat → Nat → Nat
  | 0, lo, _ => lo
  | fuel + 1, lo, hi =>
    if hi ≤ lo + 1 then lo
    else
      let mid := (lo + hi) / 2
      if mid * mid ≤ n then isqrtAux n fuel mid hi
      else isqrtAux n fuel lo mid

/-- Integer square root, sized for the `prime <<< 64` arguments below. -/
def isqrt (n : Nat) : Nat := isqrtAux n 64 0 (1 <<< 35)

/-- The 64 SHA-256 round constants, derived as FIPS 180-4 §4.2.2 defines
them: the first 32 fractional bits of the cube roots of the first 64
primes (checked against the standard by the test vectors below). -/
def K256 : List Nat :=
  (firstPrimes 64).map fun p => icbrt (p <<< 96) % 4294967296

/-- SHA-256 working state: eight 32-bit words. -/
structure Hash8 where
  a : Nat
  b : Nat
  c : Nat
  d : Nat
  e : Nat
  f : Nat
  g : Nat
  h : Nat
deriving DecidableEq

/-- The initial SHA-256 state, derived as FIPS 180-4 §5.3.3 defines it:
the first 32 fractional bits of the square roots of the first 8 primes. -/
def initH : Hash8 :=
  match (firstPrimes 8).map fun p => isqrt (p <<< 64) % 4294967296 with
  | [a, b, c, d, e, f, g, h] => ⟨a, b, c, d, e, f, g, h⟩
  | _ => ⟨0, 0, 0, 0, 0, 0, 0, 0⟩

/-- One SHA-256 compression round, consuming one (constant, schedule word) pair. -/
def roundStep (s : Hash8) (kw : Nat × Nat) : Hash8 :=
  let t1 := w32 (s.h + bigSigma1 s.e + chFn s.e s.f s.g + kw.1 + kw.2)
  let t2 := w32 (bigSigma0 s.a + majFn s.a s.b s.c)
  ⟨w32 (t1 + t2), s.a, s.b, s.c, w32 (s.d + t1), s.e, s.f, s.g⟩

/-- Extend the message schedule; `acc` holds the words produced so far,
most recent first. -/
def extendLoop : Nat → List Nat → List Nat
  | 0, acc => acc
  | n + 1, acc =>
    let next := w32 (smallSigma1 (acc.getD 1 0) + acc.getD 6 0 +
      smallSigma0 (acc.getD 14 0) + acc.getD 15 0)
    extendLoop n (next :: acc)

/-- Expand the 16 block words into the 64-word message schedule. -/
def extendWords (block : List Nat) : List Nat :=
  (extendLoop 48 block.reverse).reverse

/-- Group bytes into big-endian 32-bit words. -/
def bytesToWords : List Nat → List Nat
  | b0 :: b1 :: b2 :: b3 :: rest =>
    (((b0 * 256 + b1) * 256 + b2) * 256 + b3) :: bytesToWords rest
  | _ => []

/-- Process one 64-byte block. -/
def processBlock (s : Hash8) (block : List Nat) : Hash8 :=
  let ws := extendWords (bytesToWords block)
  let t := (K256.zip ws).foldl roundStep s
  ⟨w32 (s.a + t.a), w32 (s.b + t.b), w32 (s.c + t.c), w32 (s.d + t.d),
   w32 (s.e + t.e), w32 (s.f + t.f), w32 (s.g + t.g), w32 (s.h + t.h)⟩

/-- Big-endian bytes of the 64-bit length field. -/
def be64 (n : Nat) : List Nat :=
  [(n >>> 56) % 256, (n >>> 48) % 256, (n >>> 40) % 256, (n >>> 32) % 256,
   (n >>> 24) % 256, (n >>> 16) % 256, (n >>> 8) % 256, n % 256]

/-- Big-endian bytes of a 32-bit word. -/
def be32 (n : Nat) : List Nat :=
  [(n >>> 24) % 256, (n >>> 16) % 256, (n >>> 8) % 256, n % 256]

/-- SHA-256 padding: a 0x80 byte, zeros, then the 64-bit message bit length. -/
def padMessage (msg : List Nat) : List Nat :=
  let padLen := (64 - ((msg.length + 9) % 64)) % 64
  msg ++ 0x80 :: List.replicate padLen 0 ++ be64 (8 * msg.length)

/-- Split a byte list into 64-byte chunks; `fuel` bounds the recursion. -/
def chunksAux : Nat → List Nat → List (List Nat)
  | 0, _ => []
  | _, [] => []
  | fuel + 1, l => l.take 64 :: chunksAux fuel (l.drop 64)

def chunks64 (l : List Nat) : List (List Nat) := chunksAux l.length l

/-- The final digest: big-endian bytes of the eight state words. -/
def digestBytes (s : Hash8) : List Nat :=
  be32 s.a ++ be32 s.b ++ be32 s.c ++ be32 s.d ++
    be32 s.e ++ be32 s.f ++ be32 s.g ++ be32 s.h

/-- SHA-256 of a byte list (each byte `< 256`), as the 32 digest bytes. -/
def sha256 (msg : List Nat) : List Nat :=
  digestBytes ((chunks64 (padMessage msg)).foldl processBlock initH)

/-- Lower-case hex character for a value below 16. -/
def hexDigit (n : Nat) : Char := if n < 10 then Char.ofNat (48 + n) else Char.ofNat (87 + n)

/-- Two hex characters per byte, as the `toString(16).padStart(2, "0")` map. -/
def hexChars : List Nat → List Char
  | [] => []
  | b :: rest => hexDigit (b / 16) :: hexDigit (b % 16) :: hexChars rest

def bytesToHex (bs : List Nat) : String := String.mk (hexChars bs)

/-- UTF-8 encoding of one character. -/
def utf8Char (c : Char) : List Nat :=
  let n := c.toNat
  if n < 0x80 then [n]
  else if n < 0x800 then [0xC0 ||| (n >>> 6), 0x80 ||| (n &&& 0x3F)]
  else if n < 0x10000 then
    [0xE0 ||| (n >>> 12), 0x80 ||| ((n >>> 6) &&& 0x3F), 0x80 ||| (n &&& 0x3F)]
  else
    [0xF0 ||| (n >>> 18), 0x80 ||| ((n >>> 12) &&& 0x3F),
     0x80 ||| ((n >>> 6) &&& 0x3F), 0x80 ||| (n &&& 0x3F)]

/-- UTF-8 bytes of a string, as `TextEncoder().encode` produces. -/
def utf8Bytes (s : String) : List Nat :=
  s.data.foldr (fun c acc => utf8Char c ++ acc) []

/-- FIPS 180 test vector: SHA-256 of the empty message. -/
example : bytesToHex (sha256 (utf8Bytes "")) =
    "e3b0c44298fc1c149afbf4c8996fb92427ae41e4649b934ca495991b7852b855" := by decide

/-- FIPS 180 test vector: SHA-256 of "abc". -/
example : bytesToHex (sha256 (utf8Bytes "abc")) =
    "ba7816bf8f01cfea414140de5dae2223b00361a396177a9cb410ff61f20015ad" := by decide

/-! ## `JSON.stringify` for the flat objects the app hashes

The only objects `generateChecksum` receives are configuration objects:
one level deep, with string, string-array, or number values. `JsonLeaf` /
`JsonObj` model exactly that shape; an object is an ordered field list,
because `JSON.stringify` serializes keys in object insertion order. -/

inductive JsonLeaf
  | str (s : String)
  | num (n : Nat)
  | strArr (xs : List String)
deriving DecidableEq

def JsonObj := List (String × JsonLeaf)
deriving instance DecidableEq for JsonObj

/-- JSON escaping of one character (quote, backslash, common controls). -/
def jsonEscChars (c : Char) : List Char :=
  if c == '"' then ['\\', '"']
  else if c == '\\' then ['\\', '\\']
  else if c == '\n' then ['\\', 'n']
  else if c == '\t' then ['\\', 't']
  else if c == '\r' then ['\\', 'r']
  else [c]

/-- A JSON string literal, quoted and escaped. -/
def jsonStrChars (s : String) : List Char :=
  '"' :: s.data.foldr (fun c acc => jsonEscChars c ++ acc) ['"']

/-- Decimal digits of a natural number; `fuel` bounds the recursion. -/
def natDecAux : Nat → Nat → List Char → List Char
  | 0, _, acc => acc
  | fuel + 1, n, acc =>
    let d := Char.ofNat (48 + n % 10)
    if n < 10 then d :: acc else natDecAux fuel (n / 10) (d :: acc)

def natChars (n : Nat) : List Char := natDecAux (n + 1) n []

def natToString (n : Nat) : String := String.mk (natChars n)

/-- Comma-join, as between JSON array elements and object fields. -/
def joinCommaChars : List (List Char) → List Char
  | [] => []
  | [x] => x
  | x :: y :: rest => x ++ ',' :: joinCommaChars (y :: rest)

def jsonLeafChars : JsonLeaf → List Char
  | .str s => jsonStrChars s
  | .num n => natChars n
  | .strArr xs => '[' :: joinCommaChars (xs.map jsonStrChars) ++ [']']

def jsonFieldChars (p : String × JsonLeaf) : List Char :=
  jsonStrChars p.1 ++ ':' :: jsonLeafChars p.2

/-- `JSON.stringify` of a flat object: fields in their stored order. -/
def jsonStringifyObj (fs : JsonObj) : String :=
  String.mk ('\x7b' :: joinCommaChars (fs.map jsonFieldChars) ++ ['\x7d'])

/-- `generateChecksum`: hex SHA-256 of the UTF-8 bytes of the JSON
serialization of the object. -/
def generateChecksum (obj : JsonObj) : String :=
  bytesToHex (sha256 (utf8Bytes (jsonStringifyObj obj)))

/-! ## Constants and configuration -/

def REFRESH_BUFFER_SECONDS : Nat := 300

def DEFAULT_DURATION_SECONDS : Nat := 3600

def ALGORITHM : String := "RS256"

/-- The schema default for `scopes`. -/
def defaultScopes : List String := ["https://www.googleapis.com/auth/cloud-platform"]

/-- The app configuration. The three string fields model JS strings where
the empty string doubles as "not supplied" (both are falsy under `!x`);
`scopes` and `durationSeconds` are `none` when the host passes no value. -/
structure Config where
  projectId : String
  serviceAccountEmail : String
  workloadIdentityProvider : String
  scopes : Option (List String)
  durationSeconds : Option Nat
deriving DecidableEq

/-- The configuration object as the host hands it to `JSON.stringify`:
all five schema fields, schema defaults applied, in schema order. -/
def configToJson (cfg : Config) : JsonObj :=
  [("projectId", .str cfg.projectId),
   ("serviceAccountEmail", .str cfg.serviceAccountEmail),
   ("workloadIdentityProvider", .str cfg.workloadIdentityProvider),
   ("scopes", .strArr (cfg.scopes.getD defaultScopes)),
   ("durationSeconds", .num (cfg.durationSeconds.getD DEFAULT_DURATION_SECONDS))]

/-! ## The key-value store and the data model -/

/-- A private RSA key in JWK form (opaque components; `crypto.subtle.exportKey`
of the private half). Present as a JS object, it is always truthy. -/
structure PrivateJwk where
  n : String
  e : String
  d : String
  p : String
  q : String
  dp : String
  dq : String
  qi : String
deriving DecidableEq

/-- A public RSA key in JWK form: only the public components. -/
structure PublicJwk where
  n : String
  e : String
deriving DecidableEq

/-- The app KV store: one optional slot per key the app uses
(`privateKey`, `publicKey`, `keyId`, `expiresAt`, `configChecksum`). -/
structure Store where
  privateKey : Option PrivateJwk
  publicKey : Option PublicJwk
  keyId : Option String
  expiresAt : Option Nat
  configChecksum : Option String
deriving DecidableEq

def emptyStore : Store := ⟨none, none, none, none, none⟩

/-- The result of one `crypto.subtle.generateKey` + `randomUUID` invocation,
passed in explicitly where the source calls ambient crypto. -/
structure KeyGen where
  privateKeyJwk : PrivateJwk
  publicKeyJwk : PublicJwk
  newKeyId : String
deriving DecidableEq

/-- JS falsiness of an optional numeric KV value (`null` or `0`). -/
def jsFalsyNum : Option Nat → Bool
  | none => true
  | some v => v == 0

/-- JS falsiness of an optional string KV value (`null` or `""`). -/
def jsFalsyStr : Option String → Bool
  | none => true
  | some s => s == ""

/-! ## Operations from `main.ts` -/

/-- `ensureKeyPair`: if any of the three key components is missing (falsy),
generate a fresh pair and store all three in one `setMany` batch; otherwise
leave the store untouched. -/
def ensureKeyPair (store : Store) (gen : KeyGen) : Store :=
  if store.privateKey.isNone || store.publicKey.isNone || jsFalsyStr store.keyId then
    { store with
        privateKey := some gen.privateKeyJwk
        publicKey := some gen.publicKeyJwk
        keyId := some gen.newKeyId }
  else store

/-- `shouldRefreshCredentials`: config drift (no stored checksum, or stored
checksum differs from the current one) or expiry (no stored expiry, or
stored expiry below `now + 300s`). `nowMs` is `Date.now()`. -/
def shouldRefreshCredentials (store : Store) (cfg : Config) (nowMs : Nat) : Bool :=
  let currentChecksum := generateChecksum (configToJson cfg)
  let configChanged := jsFalsyStr store.configChecksum ||
    (match store.configChecksum with
     | none => true
     | some prev => currentChecksum != prev)
  let needsRefresh := jsFalsyNum store.expiresAt ||
    (match store.expiresAt with
     | none => true
     | some e => decide (e < nowMs + REFRESH_BUFFER_SECONDS * 1000))
  configChanged || needsRefresh

/-- Errors thrown by `createOidcToken` / `generateCredentials`. -/
inductive GenError
  | keyUnavailable
  | stsExchangeFailed (status : Nat) (body : String)
  | impersonationFailed (status : Nat) (body : String)
deriving DecidableEq

/-- The thrown `Error`'s `.message`, as the source formats it. -/
def errMessage : GenError → String
  | .keyUnavailable => "Private key or key ID not found"
  | .stsExchangeFailed status body =>
    "GCP STS token exchange failed: " ++ natToString status ++ " " ++ body
  | .impersonationFailed status body =>
    "Service account impersonation failed: " ++ natToString status ++ " " ++ body

structure JwtHeader where
  alg : String
  typ : String
  kid : String
deriving DecidableEq

structure JwtPayload where
  iss : String
  sub : String
  aud : String
  exp : Nat
  iat : Nat
  nbf : Nat
  jti : String
deriving DecidableEq

/-- A self-issued identity token, kept in decoded form: the base64url JSON
encoding and the RSA signature appended by the source are injective wrappers
no claim inspects. -/
structure OidcToken where
  header : JwtHeader
  payload : JwtPayload
deriving DecidableEq

/-- Drop everything through the first `"://"` of a URL. -/
def dropThroughScheme : List Char → List Char
  | [] => []
  | ':' :: '/' :: '/' :: rest => rest
  | _ :: rest => dropThroughScheme rest

/-- `new URL(u).hostname` for the https URLs the host supplies: the
authority part, cut at the first path / port / query / fragment delimiter. -/
def urlHostname (url : String) : String :=
  String.mk ((dropThroughScheme url.data).takeWhile
    fun c => !(c == '/' || c == ':' || c == '?' || c == '#'))

/-- `createOidcToken`: fails when the private key or key id is missing
(falsy); otherwise builds the RS256 JWT header and payload. `nowMs` is
`Date.now()`; `jti` is the `randomUUID()` value. -/
def createOidcToken (store : Store) (appUrl : String) (nowMs : Nat) (jti : String) :
    Except GenError OidcToken :=
  match store.privateKey, store.keyId with
  | some _, some kid =>
    if kid == "" then .error .keyUnavailable
    else
      let nowSec := nowMs / 1000
      .ok ⟨⟨ALGORITHM, "JWT", kid⟩,
           ⟨appUrl, urlHostname appUrl, appUrl, nowSec + 300, nowSec, nowSec, jti⟩⟩
  | _, _ => .error .keyUnavailable

/-- A remote HTTP response: status plus the error body text. -/
structure HttpResp where
  status : Nat
  body : String
deriving DecidableEq

/-- The parsed JSON of a successful STS exchange response. -/
structure StsJson where
  accessToken : String
deriving DecidableEq

/-- The parsed JSON of a successful impersonation response; `expireTimeMs`
is `new Date(expireTime).getTime()`. -/
structure ImpersonateJson where
  accessToken : String
  expireTimeMs : Nat
deriving DecidableEq

/-- The outside world of one refresh attempt: what each of the two POSTs
would return, plus the `randomUUID` drawn for the JWT id. -/
structure RemoteEnv where
  stsResp : HttpResp
  stsJson : StsJson
  impResp : HttpResp
  impJson : ImpersonateJson
  jti : String
deriving DecidableEq

/-- `fetch`'s `response.ok`: status in the 2xx range. -/
def respOk (r : HttpResp) : Bool := decide (200 ≤ r.status) && decide (r.status < 300)

structure FederatedCredential where
  accessToken : String
  expiresAt : Nat
deriving DecidableEq

/-- `generateCredentials`: sign an OIDC token, POST the token exchange, then
POST the impersonation; on double success persist `expiresAt` and the config
checksum in one `setMany` batch and return the credential. The `Nat`
component counts the remote (`fetch`) calls performed. -/
def generateCredentials (store : Store) (cfg : Config) (appUrl : String) (nowMs : Nat)
    (env : RemoteEnv) : Except GenError FederatedCredential × Store × Nat :=
  match createOidcToken store appUrl nowMs env.jti with
  | .error err => (.error err, store, 0)
  | .ok _token =>
    if respOk env.stsResp then
      if respOk env.impResp then
        let expiresAt := env.impJson.expireTimeMs
        let configChecksum := generateChecksum (configToJson cfg)
        (.ok ⟨env.impJson.accessToken, expiresAt⟩,
         { store with expiresAt := some expiresAt, configChecksum := some configChecksum },
         2)
      else
        (.error (.impersonationFailed env.impResp.status env.impResp.body), store, 2)
    else
      (.error (.stsExchangeFailed env.stsResp.status env.stsResp.body), store, 1)

/-- One key of the JWKS response body: only the verifier-facing fields the
source copies out of the stored public JWK. -/
structure JwksKey where
  kid : String
  kty : String
  n : String
  e : String
deriving DecidableEq

/-- The JWKS HTTP response (the constant content-type header is elided). -/
structure JwksResult where
  statusCode : Nat
  keys : List JwksKey
deriving DecidableEq

/-- `handleJwks`: throws when the public key or key id is missing (falsy);
otherwise a 200 with one RSA key assembled from `kid` and the stored
public JWK's `n` and `e`. -/
def handleJwks (store : Store) : Except String JwksResult :=
  match store.publicKey, store.keyId with
  | some pub, some kid =>
    if kid == "" then .error "Public key or key ID not found"
    else .ok ⟨200, [⟨kid, "RSA", pub.n, pub.e⟩]⟩
  | _, _ => .error "Public key or key ID not found"

inductive SyncStatus
  | ready
  | in_progress
  | failed
deriving DecidableEq

structure SyncOutput where
  newStatus : SyncStatus
  customStatusDescription : Option String := none
  signalUpdates : Option FederatedCredential := none
deriving DecidableEq

/-- Whether `pat` starts the list `cs`. -/
def listStartsWith : List Char → List Char → Bool
  | [], _ => true
  | _ :: _, [] => false
  | p :: ps, c :: cs => p == c && listStartsWith ps cs

def containsSub : List Char → List Char → Bool
  | [], pat => pat.isEmpty
  | c :: t, pat => listStartsWith pat (c :: t) || containsSub t pat

/-- `String.prototype.includes`. -/
def jsIncludes (s pat : String) : Bool := containsSub s.data pat.data

/-- The status description of the provider-path format failure. -/
def invalidProviderMsg : String :=
  "Invalid Workload Identity Provider format. Must include /providers/PROVIDER_ID. Expected: projects/PROJECT_NUMBER/locations/global/workloadIdentityPools/POOL_ID/providers/PROVIDER_ID"

/-- `onSync`: validate `projectId`, provision key material, short-circuit to
`in_progress` while setup is incomplete, validate the provider path format,
decide refresh necessity, and only then run the credential exchange. The
`Nat` component counts remote (`fetch`) calls. -/
def onSync (store : Store) (cfg : Config) (appUrl : String) (nowMs : Nat)
    (gen : KeyGen) (env : RemoteEnv) : SyncOutput × Store × Nat :=
  if cfg.projectId == "" then
    ({ newStatus := .failed, customStatusDescription := some "Missing required Project ID" },
     store, 0)
  else
    let store1 := ensureKeyPair store gen
    if cfg.serviceAccountEmail == "" || cfg.workloadIdentityProvider == "" then
      ({ newStatus := .in_progress, customStatusDescription := some "Continue setup" },
       store1, 0)
    else if !(jsIncludes cfg.workloadIdentityProvider "/providers/") then
      ({ newStatus := .failed, customStatusDescription := some invalidProviderMsg },
       store1, 0)
    else if !(shouldRefreshCredentials store1 cfg nowMs) then
      ({ newStatus := .ready }, store1, 0)
    else
      match generateCredentials store1 cfg appUrl nowMs env with
      | (.ok cred, store2, fetches) =>
        ({ newStatus := .ready, signalUpdates := some cred }, store2, fetches)
      | (.error err, store2, fetches) =>
        ({ newStatus := .failed,
           customStatusDescription := some ("Workload Identity sync failed: " ++ errMessage err) },
         store2, fetches)

/-- The `refresh-credentials` schedule handler: returns whether it invokes
`lifecycle.sync()`. It performs no remote call itself. -/
def onTrigger (store : Store) (nowMs : Nat) : Bool :=
  match store.expiresAt with
  | none => true
  | some e => e == 0 || decide (e < nowMs + REFRESH_BUFFER_SECONDS * 1000)

/-! ## Key-pair state predicates and reachability -/

/-- All three key components persisted. -/
def keyPairComplete (s : Store) : Prop :=
  s.privateKey ≠ none ∧ s.publicKey ≠ none ∧ s.keyId ≠ none

/-- No key component persisted. -/
def keyPairAbsent (s : Store) : Prop :=
  s.privateKey = none ∧ s.publicKey = none ∧ s.keyId = none

/-- Store states the app can reach: from the empty store, by
`ensureKeyPair` (whose three-key write the store applies atomically) and by
the refresh-state write `generateCredentials` performs on success. -/
inductive AppReachable : Store → Prop
  | init : AppReachable emptyStore
  | keyStep (s : Store) (gen : KeyGen) : AppReachable s → AppReachable (ensureKeyPair s gen)
  | credStep (s : Store) (expVal : Nat) (ck : String) : AppReachable s →
      AppReachable { s with expiresAt := some expVal, configChecksum := some ck }

/-! ## Concrete fixtures used by witnesses -/

def wPriv : PrivateJwk := ⟨"n1", "AQAB", "d1", "p1", "q1", "dp1", "dq1", "qi1"⟩

def wPub : PublicJwk := ⟨"n1", "AQAB"⟩

def wGen1 : KeyGen := ⟨wPriv, wPub, "kid-1"⟩

def wGen2 : KeyGen := ⟨wPriv, wPub, "kid-2"⟩

/-- A store holding a full key pair and no cached credential state. -/
def wStore : Store := ⟨some wPriv, some wPub, some "kid-1", none, none⟩

/-- A fully filled-in configuration. -/
def wCfg : Config :=
  ⟨"p1", "sa@p1.iam.gserviceaccount.com",
   "projects/123/locations/global/workloadIdentityPools/pool1/providers/prov1",
   none, none⟩

/-- A remote environment whose token-exchange POST fails with a 500. -/
def wEnvFail : RemoteEnv := ⟨⟨500, "boom"⟩, ⟨"sts-token"⟩, ⟨200, ""⟩, ⟨"at", 123⟩, "jti-1"⟩

/-! ## General lemmas -/

theorem sha256_length (msg : List Nat) : (sha256 msg).length = 32 := by
  unfold sha256 digestBytes be32
  simp

/-- A checksum is 64 hex characters, so never the empty (falsy) string. -/
theorem generateChecksum_ne_empty (obj : JsonObj) : generateChecksum obj ≠ "" := by
  unfold generateChecksum bytesToHex
  have h32 := sha256_length (utf8Bytes (jsonStringifyObj obj))
  cases hsha : sha256 (utf8Bytes (jsonStringifyObj obj)) with
  | nil => rw [hsha] at h32; simp at h32
  | cons b t =>
    simp only [hexChars]
    intro h
    have h2 := congrArg String.data h
    simp at h2

/-! ## Claim theorems -/

/-- C1: `shouldRefreshCredentials` is a three-way disjunction — for every
persisted state and configuration it returns `true` exactly when no
`expiresAt` is persisted, or the persisted `expiresAt` is below
`now + 300s`, or the current configuration's checksum differs from the
persisted `configChecksum`; it is `false` exactly when none of the three
conditions holds. -/
theorem shouldRefreshCredentials_threeWay (store : Store) (cfg : Config) (nowMs : Nat) :
    shouldRefreshCredentials store cfg nowMs = true ↔
      store.expiresAt = none ∨
        (∃ e, store.expiresAt = some e ∧ e < nowMs + REFRESH_BUFFER_SECONDS * 1000) ∨
        store.configChecksum ≠ some (generateChecksum (configToJson cfg)) := by
  have hne : generateChecksum (configToJson cfg) ≠ "" := generateChecksum_ne_empty _
  have hb : REFRESH_BUFFER_SECONDS * 1000 = 300000 := rfl
  obtain ⟨pk, pub, kid, ea, ck⟩ := store
  unfold shouldRefreshCredentials
  cases ea with
  | none => simp [jsFalsyNum]
  | some e =>
    cases ck with
    | none => simp [jsFalsyStr]
    | some p =>
      simp only [jsFalsyNum, jsFalsyStr, Bool.or_eq_true, beq_iff_eq, bne_iff_ne,
        decide_eq_true_eq, Option.some.injEq, ne_eq, reduceCtorEq, false_or]
      constructor
      · rintro ((hp | hcur) | he | hlt)
        · exact Or.inr fun hc => hne (hc.symm.trans hp)
        · exact Or.inr fun hc => hcur hc.symm
        · exact Or.inl ⟨e, rfl, by omega⟩
        · exact Or.inl ⟨e, rfl, hlt⟩
      · rintro (⟨e', he', hlt⟩ | hck)
        · cases he'
          exact Or.inr (Or.inr hlt)
        · exact Or.inl (Or.inr fun hc => hck hc.symm)

/-- C5: `ensureKeyPair` is idempotent — a second call right after a first
(no external deletion in between) leaves exactly the store the first call
produced, generating nothing new; the hypothesis reflects that
`crypto.randomUUID()` never returns the empty string. -/
theorem ensureKeyPair_idempotent (store : Store) (gen1 gen2 : KeyGen)
    (h : gen1.newKeyId ≠ "") :
    ensureKeyPair (ensureKeyPair store gen1) gen2 = ensureKeyPair store gen1 := by
  unfold ensureKeyPair
  by_cases hm : (store.privateKey.isNone || store.publicKey.isNone ||
      jsFalsyStr store.keyId) = true
  · rw [if_pos hm]
    simp [jsFalsyStr, h]
  · rw [if_neg hm, if_neg hm]

theorem ensureKeyPair_idempotent_witness :
    ensureKeyPair (ensureKeyPair emptyStore wGen1) wGen2 = ensureKeyPair emptyStore wGen1 :=
  ensureKeyPair_idempotent emptyStore wGen1 wGen2 (by decide)

/-- C6: key-pair completeness invariant — assuming the batched multi-key
write is atomic, every store reachable from the empty store through
`ensureKeyPair` steps (and refresh-state writes, which touch other keys)
has all three of `privateKey`, `publicKey`, `keyId` present or all three
absent. -/
theorem keyPair_invariant (s : Store) (h : AppReachable s) :
    keyPairComplete s ∨ keyPairAbsent s := by
  induction h with
  | init => exact Or.inr ⟨rfl, rfl, rfl⟩
  | keyStep s gen _ _ =>
    left
    unfold ensureKeyPair
    by_cases hm : (s.privateKey.isNone || s.publicKey.isNone || jsFalsyStr s.keyId) = true
    · rw [if_pos hm]
      exact ⟨by simp, by simp, by simp⟩
    · rw [if_neg hm]
      refine ⟨fun he => hm ?_, fun he => hm ?_, fun he => hm ?_⟩ <;>
        simp [he, jsFalsyStr]
  | credStep s expVal ck _ ih =>
    exact ih

theorem keyPair_invariant_witness :
    keyPairComplete (ensureKeyPair emptyStore wGen1) ∨
      keyPairAbsent (ensureKeyPair emptyStore wGen1) :=
  keyPair_invariant _ (AppReachable.keyStep emptyStore wGen1 AppReachable.init)

/-- C8: the scheduled trigger requests a resync exactly when the stored
expiry is absent (or the falsy 0) or below the five-minute buffer; with an
expiry at least `now + 300s` away it is a no-op, invoking no sync (and the
handler itself performs no remote call). -/
theorem onTrigger_syncs_iff (store : Store) (nowMs : Nat) :
    onTrigger store nowMs = true ↔
      store.expiresAt = none ∨
        ∃ e, store.expiresAt = some e ∧ e < nowMs + REFRESH_BUFFER_SECONDS * 1000 := by
  have hb : REFRESH_BUFFER_SECONDS * 1000 = 300000 := rfl
  unfold onTrigger
  cases he : store.expiresAt with
  | none => simp
  | some e =>
    simp only [Bool.or_eq_true, beq_iff_eq, decide_eq_true_eq, Option.some.injEq,
      reduceCtorEq, false_or, exists_eq_left']
    rw [hb]
    omega

/-- C2: the two-step exchange is all-or-nothing — a non-2xx token-exchange
response aborts with an error carrying that status and body after a single
remote call (the impersonation POST never happens, so the exchange strictly
precedes it), a non-2xx impersonation response aborts likewise, in both
cases the store is unchanged (nothing persisted) and no credential is
returned; only a double success yields the complete credential and persists
the `RefreshState`. -/
theorem generateCredentials_allOrNothing (store : Store) (cfg : Config) (appUrl : String)
    (nowMs : Nat) (env : RemoteEnv) (pk : PrivateJwk) (kid : String)
    (hpk : store.privateKey = some pk) (hkid : store.keyId = some kid) (hk : kid ≠ "") :
    (respOk env.stsResp = false →
      generateCredentials store cfg appUrl nowMs env =
        (.error (.stsExchangeFailed env.stsResp.status env.stsResp.body), store, 1)) ∧
    (respOk env.stsResp = true → respOk env.impResp = false →
      generateCredentials store cfg appUrl nowMs env =
        (.error (.impersonationFailed env.impResp.status env.impResp.body), store, 2)) ∧
    (respOk env.stsResp = true → respOk env.impResp = true →
      generateCredentials store cfg appUrl nowMs env =
        (.ok ⟨env.impJson.accessToken, env.impJson.expireTimeMs⟩,
         { store with expiresAt := some env.impJson.expireTimeMs,
                      configChecksum := some (generateChecksum (configToJson cfg)) },
         2)) := by
  unfold generateCredentials createOidcToken
  rw [hpk, hkid]
  simp only [beq_iff_eq, hk, if_false, ite_false]
  exact ⟨fun h1 => by simp [h1], fun h1 h2 => by simp [h1, h2],
         fun h1 h2 => by simp [h1, h2]⟩

theorem generateCredentials_allOrNothing_witness :
    generateCredentials wStore wCfg "https://app.example.com" 1700000000000 wEnvFail =
      (.error (.stsExchangeFailed 500 "boom"), wStore, 1) :=
  (generateCredentials_allOrNothing wStore wCfg "https://app.example.com" 1700000000000
    wEnvFail wPriv "kid-1" rfl rfl (by decide)).1 (by decide)

/-- C3: whenever key material is present, the self-issued identity token has
header `{alg = "RS256", typ = "JWT", kid = keyId}` and payload with
`iss` the issuer URL, `aud` exactly equal to `iss` (the same issuer URL),
`sub` the issuer URL's hostname, `iat = nbf = now` (seconds),
`exp = now + 300`, and the supplied random `jti`. -/
theorem createOidcToken_claims (store : Store) (appUrl : String) (nowMs : Nat) (jti : String)
    (pk : PrivateJwk) (kid : String)
    (hpk : store.privateKey = some pk) (hkid : store.keyId = some kid) (hk : kid ≠ "") :
    ∃ t : OidcToken, createOidcToken store appUrl nowMs jti = .ok t ∧
      t.header.alg = "RS256" ∧ t.header.typ = "JWT" ∧ t.header.kid = kid ∧
      t.payload.iss = appUrl ∧ t.payload.aud = appUrl ∧ t.payload.aud = t.payload.iss ∧
      t.payload.sub = urlHostname appUrl ∧
      t.payload.iat = nowMs / 1000 ∧ t.payload.nbf = nowMs / 1000 ∧
      t.payload.exp = nowMs / 1000 + 300 ∧ t.payload.jti = jti := by
  refine ⟨⟨⟨ALGORITHM, "JWT", kid⟩,
           ⟨appUrl, urlHostname appUrl, appUrl, nowMs / 1000 + 300, nowMs / 1000,
            nowMs / 1000, jti⟩⟩,
         ?_, rfl, rfl, rfl, rfl, rfl, rfl, rfl, rfl, rfl, rfl, rfl⟩
  unfold createOidcToken
  rw [hpk, hkid]
  simp [hk]

theorem createOidcToken_claims_witness :
    ∃ t : OidcToken,
      createOidcToken wStore "https://app.example.com" 1700000000123 "jti-1" = .ok t ∧
      t.header.alg = "RS256" ∧ t.header.typ = "JWT" ∧ t.header.kid = "kid-1" ∧
      t.payload.iss = "https://app.example.com" ∧
      t.payload.aud = "https://app.example.com" ∧ t.payload.aud = t.payload.iss ∧
      t.payload.sub = urlHostname "https://app.example.com" ∧
      t.payload.iat = 1700000000123 / 1000 ∧ t.payload.nbf = 1700000000123 / 1000 ∧
      t.payload.exp = 1700000000123 / 1000 + 300 ∧ t.payload.jti = "jti-1" :=
  createOidcToken_claims wStore "https://app.example.com" 1700000000123 "jti-1"
    wPriv "kid-1" rfl rfl (by decide)

/-- C7: setup-phase validation short-circuits before any remote call — with
`projectId = "p1"` and empty `serviceAccountEmail` and
`workloadIdentityProvider`, `onSync` returns `in_progress` with description
"Continue setup" and zero `fetch` calls; and with all three filled in but a
provider path not containing "/providers/", it returns `failed` with the
format-error description, also with zero `fetch` calls. -/
theorem onSync_setup_shortCircuit :
    (∀ (store : Store) (appUrl : String) (nowMs : Nat) (gen : KeyGen) (env : RemoteEnv)
       (scopes : Option (List String)) (dur : Option Nat),
       onSync store ⟨"p1", "", "", scopes, dur⟩ appUrl nowMs gen env =
         ({ newStatus := .in_progress, customStatusDescription := some "Continue setup" },
          ensureKeyPair store gen, 0)) ∧
    (∀ (store : Store) (cfg : Config) (appUrl : String) (nowMs : Nat) (gen : KeyGen)
       (env : RemoteEnv),
       cfg.projectId ≠ "" → cfg.serviceAccountEmail ≠ "" →
       cfg.workloadIdentityProvider ≠ "" →
       jsIncludes cfg.workloadIdentityProvider "/providers/" = false →
       onSync store cfg appUrl nowMs gen env =
         ({ newStatus := .failed, customStatusDescription := some invalidProviderMsg },
          ensureKeyPair store gen, 0)) := by
  constructor
  · intro store appUrl nowMs gen env scopes dur
    unfold onSync
    simp
  · intro store cfg appUrl nowMs gen env h1 h2 h3 h4
    unfold onSync
    simp [h1, h2, h3, h4]

theorem onSync_setup_shortCircuit_witness :
    jsIncludes "projects/123/locations/global/workloadIdentityPools/pool1" "/providers/" =
        false ∧
      onSync emptyStore
          ⟨"p1", "sa@p1.iam.gserviceaccount.com",
           "projects/123/locations/global/workloadIdentityPools/pool1", none, none⟩
          "https://app.example.com" 0 wGen1 wEnvFail =
        ({ newStatus := .failed, customStatusDescription := some invalidProviderMsg },
         ensureKeyPair emptyStore wGen1, 0) :=
  ⟨by decide,
   onSync_setup_shortCircuit.2 emptyStore
     ⟨"p1", "sa@p1.iam.gserviceaccount.com",
      "projects/123/locations/global/workloadIdentityPools/pool1", none, none⟩
     "https://app.example.com" 0 wGen1 wEnvFail
     (by decide) (by decide) (by decide) (by decide)⟩

/-- C9: the JWKS endpoint exposes only public verification fields — with
public key material and a non-empty key id persisted it returns a 200 body
exactly of shape `{keys: [{kid, kty: "RSA", n, e}]}` (a record type with no
private-key component `d`, `p`, `q`, `dp`, `dq`, `qi` at all), and with the
public key or key id absent (falsy) it fails with an error instead. -/
theorem handleJwks_shape (store : Store) :
    (∀ (pub : PublicJwk) (kid : String),
       store.publicKey = some pub → store.keyId = some kid → kid ≠ "" →
       handleJwks store = .ok ⟨200, [⟨kid, "RSA", pub.n, pub.e⟩]⟩) ∧
    ((store.publicKey = none ∨ store.keyId = none ∨ store.keyId = some "") →
       handleJwks store = .error "Public key or key ID not found") := by
  constructor
  · intro pub kid hpub hkid hkne
    unfold handleJwks
    rw [hpub, hkid]
    simp [hkne]
  · intro h
    unfold handleJwks
    rcases h with h | h | h
    · rw [h]
    · rw [h]
      cases store.publicKey <;> rfl
    · rw [h]
      cases store.publicKey <;> rfl

theorem handleJwks_shape_witness :
    handleJwks wStore = .ok ⟨200, [⟨"kid-1", "RSA", "n1", "AQAB"⟩]⟩ :=
  (handleJwks_shape wStore).1 wPub "kid-1" rfl rfl (by decide)

/-- `ensureKeyPair` always leaves a usable key pair behind when the fresh
key id is non-empty (as `randomUUID()` values are). -/
theorem ensureKeyPair_usable (store : Store) (gen : KeyGen) (hgen : gen.newKeyId ≠ "") :
    ∃ (pub : PublicJwk) (kid : String),
      (ensureKeyPair store gen).privateKey ≠ none ∧
      (ensureKeyPair store gen).publicKey = some pub ∧
      (ensureKeyPair store gen).keyId = some kid ∧ kid ≠ "" := by
  unfold ensureKeyPair
  by_cases hm : (store.privateKey.isNone || store.publicKey.isNone ||
      jsFalsyStr store.keyId) = true
  · rw [if_pos hm]
    exact ⟨gen.publicKeyJwk, gen.newKeyId, by simp, rfl, rfl, hgen⟩
  · rw [if_neg hm]
    simp only [Bool.or_eq_true, not_or, Bool.not_eq_true, Option.isNone_eq_false_iff,
      Option.isSome_iff_exists] at hm
    obtain ⟨⟨⟨pk, hpk⟩, pub, hpub⟩, hkid⟩ := hm
    cases hkidv : store.keyId with
    | none => rw [hkidv] at hkid; simp [jsFalsyStr] at hkid
    | some kid =>
      refine ⟨pub, kid, by simp [hpk], hpub, rfl, fun he => ?_⟩
      rw [hkidv, he] at hkid
      simp [jsFalsyStr] at hkid

/-- C10: key material is provisioned before setup completes — with a present
`projectId`, `onSync` runs `ensureKeyPair` before the
`serviceAccountEmail` / `workloadIdentityProvider` check, so an `onSync`
returning `in_progress` has persisted exactly the `ensureKeyPair` store, in
which the full key pair is present and the JWKS endpoint already serves a
key set. -/
theorem onSync_provisions_keys (store : Store) (cfg : Config) (appUrl : String)
    (nowMs : Nat) (gen : KeyGen) (env : RemoteEnv)
    (hgen : gen.newKeyId ≠ "") (hp : cfg.projectId ≠ "")
    (hsync : (onSync store cfg appUrl nowMs gen env).1.newStatus = .in_progress) :
    (onSync store cfg appUrl nowMs gen env).2.1 = ensureKeyPair store gen ∧
      keyPairComplete (ensureKeyPair store gen) ∧
      ∃ body, handleJwks (ensureKeyPair store gen) = .ok body := by
  obtain ⟨pub, kid, hpriv, hpub, hkid, hkne⟩ := ensureKeyPair_usable store gen hgen
  refine ⟨?_, ⟨hpriv, by simp [hpub], by simp [hkid]⟩,
         ⟨⟨200, [⟨kid, "RSA", pub.n, pub.e⟩]⟩, ?_⟩⟩
  · unfold onSync at hsync ⊢
    rw [if_neg (by simpa using hp)] at hsync ⊢
    by_cases hsetup : (cfg.serviceAccountEmail == "" ||
        cfg.workloadIdentityProvider == "") = true
    · rw [if_pos hsetup]
    · rw [if_neg hsetup] at hsync
      exfalso
      by_cases hfmt : (!jsIncludes cfg.workloadIdentityProvider "/providers/") = true
      · rw [if_pos hfmt] at hsync
        simp at hsync
      · rw [if_neg hfmt] at hsync
        by_cases href : (!shouldRefreshCredentials (ensureKeyPair store gen) cfg nowMs) = true
        · rw [if_pos href] at hsync
          simp at hsync
        · rw [if_neg href] at hsync
          rcases hgc : generateCredentials (ensureKeyPair store gen) cfg appUrl nowMs env
            with ⟨res, store2, fetches⟩
          rw [hgc] at hsync
          cases res <;> simp at hsync
  · unfold handleJwks
    rw [hpub, hkid]
    simp [hkne]

theorem onSync_provisions_keys_witness :
    (onSync emptyStore ⟨"p1", "", "", none, none⟩ "https://app.example.com" 0 wGen1
        wEnvFail).2.1 = ensureKeyPair emptyStore wGen1 ∧
      keyPairComplete (ensureKeyPair emptyStore wGen1) ∧
      ∃ body, handleJwks (ensureKeyPair emptyStore wGen1) = .ok body :=
  onSync_provisions_keys emptyStore ⟨"p1", "", "", none, none⟩ "https://app.example.com" 0
    wGen1 wEnvFail (by decide) (by decide) rfl

/-! ## Checksum fixtures (C4) -/

def cfgBase : Config :=
  ⟨"p1", "sa@p1.iam.gserviceaccount.com",
   "projects/123/locations/global/workloadIdentityPools/pool1/providers/prov1",
   some ["https://www.googleapis.com/auth/cloud-platform"], some 3600⟩

def cfgProjectChanged : Config := { cfgBase with projectId := "p2" }

def cfgEmailChanged : Config :=
  { cfgBase with serviceAccountEmail := "sb@p1.iam.gserviceaccount.com" }

def cfgProviderChanged : Config :=
  { cfgBase with workloadIdentityProvider :=
      "projects/123/locations/global/workloadIdentityPools/pool1/providers/prov2" }

def cfgScopesChanged : Config :=
  { cfgBase with scopes := some ["https://www.googleapis.com/auth/compute"] }

def cfgDurationChanged : Config := { cfgBase with durationSeconds := some 1800 }

/-- The same five field-value pairs as `configToJson cfgBase`, with the first
two fields in the opposite order — an object a host could equally supply. -/
def cfgBasePermuted : JsonObj :=
  [("serviceAccountEmail", .str "sa@p1.iam.gserviceaccount.com"),
   ("projectId", .str "p1"),
   ("workloadIdentityProvider",
    .str "projects/123/locations/global/workloadIdentityPools/pool1/providers/prov1"),
   ("scopes", .strArr ["https://www.googleapis.com/auth/cloud-platform"]),
   ("durationSeconds", .num 3600)]

/-- C4 counterexample: the claim's order-insensitivity is false —
`cfgBasePermuted` holds exactly the field-value pairs of
`configToJson cfgBase` (a permutation), yet `generateChecksum` hashes the
two objects differently, because `JSON.stringify` serializes fields in
insertion order and the hash covers that serialization. -/
theorem generateChecksum_orderSensitive_cex :
    List.Perm cfgBasePermuted (configToJson cfgBase) ∧
      generateChecksum cfgBasePermuted ≠ generateChecksum (configToJson cfgBase) :=
  ⟨by decide, by decide⟩

/-- C4 (amended): the checksum is determined by the serialized JSON —
configurations serializing identically (in particular, the same field-value
pairs in the same order) hash identically — but it is order-sensitive, not
order-insensitive; and at a representative configuration, changing the
value of any one of `projectId`, `serviceAccountEmail`,
`workloadIdentityProvider`, `scopes`, or `durationSeconds` changes the
checksum. -/
theorem generateChecksum_amended :
    (∀ o1 o2 : JsonObj, jsonStringifyObj o1 = jsonStringifyObj o2 →
       generateChecksum o1 = generateChecksum o2) ∧
    generateChecksum (configToJson cfgProjectChanged) ≠
      generateChecksum (configToJson cfgBase) ∧
    generateChecksum (configToJson cfgEmailChanged) ≠
      generateChecksum (configToJson cfgBase) ∧
    generateChecksum (configToJson cfgProviderChanged) ≠
      generateChecksum (configToJson cfgBase) ∧
    generateChecksum (configToJson cfgScopesChanged) ≠
      generateChecksum (configToJson cfgBase) ∧
    generateChecksum (configToJson cfgDurationChanged) ≠
      generateChecksum (configToJson cfgBase) := by
  refine ⟨fun o1 o2 h => ?_, by decide, by decide, by decide, by decide, by decide⟩
  unfold generateChecksum
  rw [h]

theorem generateChecksum_amended_witness :
    generateChecksum (configToJson cfgBase) = generateChecksum (configToJson cfgBase) :=
  generateChecksum_amended.1 (configToJson cfgBase) (configToJson cfgBase) rfl

end GcpWif
